import Mathlib

/-!
Shallow embedding of the crisp RV32I interpreter core
(crisp-vm/src/machine/{state.rs, instructions/decode.rs, instructions/instructions.rs}).

Machine words are `Nat` values; a value of Rust type `u32` is a `Nat` below
2^32 and every wrapping operation carries an explicit `% 4294967296`.
Fallible Rust operations return `Res`, whose `panic` constructor models a
Rust runtime panic (array index out of bounds); `err` carries the explicit
error values the source returns.
-/

namespace Crisp

/-- Error enum of state.rs. -/
inductive StError where
  | InvalidRegister
  | IllegalOperation
  | InvalidMemoryAccess
deriving DecidableEq, Repr

/-- InstError enum of instructions.rs: a propagated state error, or Suspend (ECALL). -/
inductive InstError where
  | state (e : StError)
  | suspend
deriving DecidableEq, Repr

/-- Outcome of a fallible Rust computation: a value, an explicit error, or a
runtime panic (e.g. an out-of-bounds array index). -/
inductive Res (ε : Type) (α : Type) where
  | ok (v : α)
  | err (e : ε)
  | panic
deriving DecidableEq, Repr

/-- Sequencing of fallible computations: the `?` operator of Rust. -/
def Res.bind {ε α β : Type} : Res ε α → (α → Res ε β) → Res ε β
  | .ok v, f => f v
  | .err e, _ => .err e
  | .panic, _ => .panic

/-- Implicit conversion of a state error into an InstError (the #[from] impl). -/
def liftE {α : Type} : Res StError α → Res InstError α
  | .ok v => .ok v
  | .err e => .err (.state e)
  | .panic => .panic

/-- State struct of state.rs: pc, the register array `[u32; 31]` and the
memory array `[u8; M]`. The Rust arrays become lists; `State.default M`
matches `State::<M>::default()` (all zero). -/
structure State where
  pc : Nat
  registers : List Nat
  memory : List Nat
deriving DecidableEq, Repr

/-- Default state: pc 0, 31 zeroed registers, M zeroed memory bytes. -/
def State.default (M : Nat) : State :=
  ⟨0, List.replicate 31 0, List.replicate M 0⟩

/-- State::get_pc. -/
def State.get_pc (s : State) : Nat := s.pc

/-- State::set_pc. -/
def State.set_pc (s : State) (value : Nat) : State := { s with pc := value }

/-- State::get_r: 0 yields 0; names above 31 are InvalidRegister; otherwise
`self.registers[name]`, which panics when the index reaches the length of
the register array. -/
def State.get_r (s : State) (name : Nat) : Res StError Nat :=
  if name = 0 then .ok 0
  else if name > 31 then .err .InvalidRegister
  else match s.registers[name]? with
    | some v => .ok v
    | none => .panic

/-- State::set_r: 0 is IllegalOperation; names above 31 are InvalidRegister;
otherwise `self.registers[name] = value`, which panics when the index
reaches the length of the register array. -/
def State.set_r (s : State) (name : Nat) (value : Nat) : Res StError State :=
  if name = 0 then .err .IllegalOperation
  else if name > 31 then .err .InvalidRegister
  else if name < s.registers.length then
    .ok { s with registers := s.registers.set name value }
  else .panic

/-- State::get_mem_u8: `self.memory[addr]`, a panic when addr is out of
bounds (the source has only a TODO where a bounds check would be). -/
def State.get_mem_u8 (s : State) (addr : Nat) : Res StError Nat :=
  match s.memory[addr]? with
  | some b => .ok b
  | none => .panic

/-- State::get_mem_u16: u16::from_le_bytes of the bytes at base_addr and
base_addr + 1. -/
def State.get_mem_u16 (s : State) (base_addr : Nat) : Res StError Nat :=
  (s.get_mem_u8 base_addr).bind fun a =>
  (s.get_mem_u8 (base_addr + 1)).bind fun b =>
  .ok (a ||| (b <<< 8))

/-- State::get_mem_u32: u32::from_le_bytes of the four bytes starting at
base_addr. -/
def State.get_mem_u32 (s : State) (base_addr : Nat) : Res StError Nat :=
  (s.get_mem_u8 base_addr).bind fun a =>
  (s.get_mem_u8 (base_addr + 1)).bind fun b =>
  (s.get_mem_u8 (base_addr + 2)).bind fun c =>
  (s.get_mem_u8 (base_addr + 3)).bind fun d =>
  .ok (a ||| (b <<< 8) ||| (c <<< 16) ||| (d <<< 24))

/-- State::set_mem_u8: `self.memory[addr] = val`, a panic when addr is out
of bounds (the source has only a TODO where a bounds check would be). -/
def State.set_mem_u8 (s : State) (addr : Nat) (val : Nat) : Res StError State :=
  if addr < s.memory.length then
    .ok { s with memory := s.memory.set addr val }
  else .panic

/-- State::set_mem_u16: stores val.to_le_bytes at base_addr, base_addr + 1. -/
def State.set_mem_u16 (s : State) (base_addr : Nat) (val : Nat) : Res StError State :=
  (s.set_mem_u8 base_addr (val &&& 255)).bind fun s1 =>
  (s1.set_mem_u8 (base_addr + 1) ((val >>> 8) &&& 255)).bind fun s2 =>
  .ok s2

/-- State::set_mem_u32: stores val.to_le_bytes at base_addr .. base_addr + 3. -/
def State.set_mem_u32 (s : State) (base_addr : Nat) (val : Nat) : Res StError State :=
  (s.set_mem_u8 base_addr (val &&& 255)).bind fun s1 =>
  (s1.set_mem_u8 (base_addr + 1) ((val >>> 8) &&& 255)).bind fun s2 =>
  (s2.set_mem_u8 (base_addr + 2) ((val >>> 16) &&& 255)).bind fun s3 =>
  (s3.set_mem_u8 (base_addr + 3) ((val >>> 24) &&& 255)).bind fun s4 =>
  .ok s4

/-- Inst enum of instructions.rs (field widths u8/u16/u32 become Nat). -/
inductive Inst where
  | LUI (rd imm : Nat)
  | AUIPC (rd imm : Nat)
  | JAL (rd imm : Nat)
  | JALR (rd rs1 imm : Nat)
  | BEQ (rs1 rs2 imm : Nat)
  | BNE (rs1 rs2 imm : Nat)
  | BLT (rs1 rs2 imm : Nat)
  | BLTU (rs1 rs2 imm : Nat)
  | BGE (rs1 rs2 imm : Nat)
  | BGEU (rs1 rs2 imm : Nat)
  | LB (rs1 rd imm : Nat)
  | LH (rs1 rd imm : Nat)
  | LW (rd rs1 imm : Nat)
  | LBU (rd rs1 imm : Nat)
  | LHU (rd rs1 imm : Nat)
  | SB (rs1 rs2 imm : Nat)
  | SH (rs1 rs2 imm : Nat)
  | SW (rs1 rs2 imm : Nat)
  | ADDI (rd rs1 imm : Nat)
  | SLTI (rd rs1 imm : Nat)
  | SLTIU (rd rs1 imm : Nat)
  | XORI (rd rs1 imm : Nat)
  | ORI (rd rs1 imm : Nat)
  | ANDI (rd rs1 imm : Nat)
  | SLLI (rd rs1 shamt : Nat)
  | SRLI (rd rs1 shamt : Nat)
  | SRAI (rd rs1 shamt : Nat)
  | ADD (rd rs1 rs2 : Nat)
  | SUB (rd rs1 rs2 : Nat)
  | SLL (rd rs1 rs2 : Nat)
  | SRL (rd rs1 rs2 : Nat)
  | SRA (rd rs1 rs2 : Nat)
  | SLT (rd rs1 rs2 : Nat)
  | SLTU (rd rs1 rs2 : Nat)
  | XOR (rd rs1 rs2 : Nat)
  | OR (rd rs1 rs2 : Nat)
  | AND (rd rs1 rs2 : Nat)
  | ECALL
  | IGNORE
deriving DecidableEq, Repr

/-- Bit-field helper of decode.rs: `(n >> shift) & ((1 << width) - 1)`. -/
def select (n : Nat) (shift : Nat) (width : Nat) : Nat :=
  (n >>> shift) &&& ((1 <<< width) - 1)

/-- Helper of decode.rs unpacking an I-type word into
(rd, funct3, rs1, imm); the `as u8` / `as u16` casts of the source become
`% 256` / `% 65536`. -/
def unpack_i (inst : Nat) : Nat × Nat × Nat × Nat :=
  (select inst 7 5 % 256, select inst 12 3 % 256, select inst 15 5 % 256,
    select inst 20 12 % 65536)

/-- decode of decode.rs: dispatch on the low 7 bits; `none` renders the
sole decode error UnknownInst. The source handles exactly the opcodes
listed here; every other opcode (including 0b0001111 and 0b1110011) falls
through to UnknownInst. -/
def decode (inst : Nat) : Option Inst :=
  let opc := inst &&& 127
  if opc = 55 then
    some (.LUI (select inst 7 5 % 256) (select inst 12 20 <<< 12))
  else if opc = 23 then
    some (.AUIPC (select inst 7 5 % 256) (select inst 12 20 <<< 12))
  else if opc = 111 then
    some (.JAL (select inst 7 5 % 256)
      (((inst >>> 31) <<< 20) ||| (((inst >>> 12) &&& 255) <<< 12) |||
        (((inst >>> 20) &&& 1) <<< 11) ||| (((inst >>> 21) &&& 1023) <<< 1)))
  else if opc = 103 then
    let u := unpack_i inst
    if u.2.1 = 0 then some (.JALR u.1 u.2.2.1 u.2.2.2) else none
  else if opc = 99 then
    let f3 := select inst 12 3 % 256
    let rs1 := select inst 15 5 % 256
    let rs2 := select inst 20 5 % 256
    let imm := (((inst >>> 31) <<< 12) ||| (((inst >>> 7) &&& 1) <<< 11) |||
      (((inst >>> 25) &&& 63) <<< 5) ||| (((inst >>> 8) &&& 15) <<< 1)) % 65536
    if f3 = 0 then some (.BEQ rs1 rs2 imm)
    else if f3 = 1 then some (.BNE rs1 rs2 imm)
    else if f3 = 4 then some (.BLT rs1 rs2 imm)
    else if f3 = 5 then some (.BGE rs1 rs2 imm)
    else if f3 = 6 then some (.BLTU rs1 rs2 imm)
    else if f3 = 7 then some (.BGEU rs1 rs2 imm)
    else none
  else if opc = 3 then
    let u := unpack_i inst
    if u.2.1 = 0 then some (.LB u.2.2.1 u.1 u.2.2.2)
    else if u.2.1 = 1 then some (.LH u.2.2.1 u.1 u.2.2.2)
    else if u.2.1 = 2 then some (.LW u.1 u.2.2.1 u.2.2.2)
    else if u.2.1 = 4 then some (.LBU u.1 u.2.2.1 u.2.2.2)
    else if u.2.1 = 5 then some (.LHU u.1 u.2.2.1 u.2.2.2)
    else none
  else if opc = 35 then
    let imm := (((inst >>> 25) <<< 5) ||| ((inst >>> 7) &&& 31)) % 65536
    let f3 := select inst 12 3 % 256
    let rs1 := select inst 15 5 % 256
    let rs2 := select inst 20 5 % 256
    if f3 = 0 then some (.SB rs1 rs2 imm)
    else if f3 = 1 then some (.SH rs1 rs2 imm)
    else if f3 = 2 then some (.SW rs1 rs2 imm)
    else none
  else if opc = 19 then
    let u := unpack_i inst
    if u.2.1 = 0 then some (.ADDI u.1 u.2.2.1 u.2.2.2)
    else if u.2.1 = 2 then some (.SLTI u.1 u.2.2.1 u.2.2.2)
    else if u.2.1 = 3 then some (.SLTIU u.1 u.2.2.1 u.2.2.2)
    else if u.2.1 = 4 then some (.XORI u.1 u.2.2.1 u.2.2.2)
    else if u.2.1 = 6 then some (.ORI u.1 u.2.2.1 u.2.2.2)
    else if u.2.1 = 7 then some (.ANDI u.1 u.2.2.1 u.2.2.2)
    else if u.2.1 = 1 then
      some (.SLLI u.1 u.2.2.1 ((u.2.2.2 &&& 31) % 256))
    else if u.2.1 = 5 then
      let shamt := (u.2.2.2 &&& 31) % 256
      if u.2.2.2 >>> 5 = 0 then some (.SRLI u.1 u.2.2.1 shamt)
      else if u.2.2.2 >>> 5 = 32 then some (.SRAI u.1 u.2.2.1 shamt)
      else none
    else none
  else if opc = 51 then
    let rd := select inst 7 5 % 256
    let f3 := select inst 12 3 % 256
    let rs1 := select inst 15 5 % 256
    let rs2 := select inst 20 5 % 256
    let f7 := select inst 25 7 % 256
    if f3 = 0 ∧ f7 = 0 then some (.ADD rd rs1 rs2)
    else if f3 = 0 ∧ f7 = 32 then some (.SUB rd rs1 rs2)
    else if f3 = 1 ∧ f7 = 0 then some (.SLL rd rs1 rs2)
    else if f3 = 2 ∧ f7 = 0 then some (.SLT rd rs1 rs2)
    else if f3 = 3 ∧ f7 = 0 then some (.SLTU rd rs1 rs2)
    else if f3 = 4 ∧ f7 = 0 then some (.XOR rd rs1 rs2)
    else if f3 = 5 ∧ f7 = 0 then some (.SRL rd rs1 rs2)
    else if f3 = 5 ∧ f7 = 32 then some (.SRA rd rs1 rs2)
    else if f3 = 6 ∧ f7 = 0 then some (.OR rd rs1 rs2)
    else if f3 = 7 ∧ f7 = 0 then some (.AND rd rs1 rs2)
    else none
  else none

/-- sign_extend! macro of instructions.rs: when bit (size - 1) of val is 1,
OR val with `u32::MAX << size` (a wrapping u32 shift). -/
def sign_extend (size : Nat) (val : Nat) : Nat :=
  if val >>> (size - 1) = 1 then ((4294967295 <<< size) % 4294967296) ||| val
  else val

/-- add! macro: u32 wrapping_add. -/
def wadd (a b : Nat) : Nat := (a + b) % 4294967296

/-- shl! macro: u32 wrapping_shl (the shift amount is masked to 5 bits,
the shifted-out bits are discarded). -/
def wshl (a b : Nat) : Nat := (a <<< (b % 32)) % 4294967296

/-- shr! macro: u32 wrapping_shr (the shift amount is masked to 5 bits). -/
def wshr (a b : Nat) : Nat := a >>> (b % 32)

/-- signed_cmp_lt of instructions.rs: unsigned comparison when the sign
bits agree, otherwise a is smaller iff its sign bit is set. -/
def signed_cmp_lt (a b : Nat) : Bool :=
  if a >>> 31 = b >>> 31 then decide (a < b) else decide (a >>> 31 = 1)

/-- signed_cmp_gt of instructions.rs (a signed `>=` despite the name). -/
def signed_cmp_gt (a b : Nat) : Bool :=
  if a >>> 31 = b >>> 31 then decide (¬ (a < b)) else decide (a >>> 31 = 0)

/-- right_shift_arithmetic of instructions.rs: shift amount modulo 32;
when the original bit 31 is 1 and the amount is positive, OR the logical
shift with `u32::MAX << (32 - amount)` (a wrapping u32 shift). -/
def right_shift_arithmetic (val : Nat) (amount : Nat) : Nat :=
  let amt := amount % 32
  if val >>> 31 = 1 ∧ 0 < amt then
    (val >>> amt) ||| ((4294967295 <<< (32 - amt)) % 4294967296)
  else
    val >>> amt

/-- u32 bitwise NOT `!x` of the source: for a u32 bit pattern x this is
4294967295 - x. -/
def u32_not (x : Nat) : Nat := 4294967295 - x

/-- branch helper of instructions.rs: reads rs1 then rs2 (borrowing the
state immutably, so no mutation is possible), and when cmp holds returns
the wrapping sum of pc and the 13-bit sign-extended immediate. -/
def branch (s : State) (rs1 rs2 : Nat) (imm : Nat) (cmp : Nat → Nat → Bool) :
    Res InstError (Option Nat) :=
  (liftE (s.get_r rs1)).bind fun a =>
  (liftE (s.get_r rs2)).bind fun b =>
  if cmp a b then .ok (some (wadd s.get_pc (sign_extend 13 imm)))
  else .ok none

/-- Inst::execute of instructions.rs. The Rust signature mutates the state
and returns `Result<Option<u32>, InstError>`; here the updated state is
returned alongside the optional redirect target. -/
def Inst.execute (i : Inst) (s : State) : Res InstError (Option Nat × State) :=
  match i with
  | .LUI rd imm =>
    (liftE (s.set_r rd imm)).bind fun s1 => .ok (none, s1)
  | .AUIPC rd imm =>
    (liftE (s.set_r rd (wadd s.get_pc imm))).bind fun s1 => .ok (none, s1)
  | .JAL rd imm =>
    let current_pc := s.get_pc
    (liftE (s.set_r rd (current_pc + 4))).bind fun s1 =>
    .ok (some (wadd current_pc (sign_extend 21 imm)), s1)
  | .JALR rd rs1 imm =>
    (liftE (s.get_r rs1)).bind fun r1 =>
    let addr := wadd r1 (sign_extend 12 imm)
    let addr := addr >>> 1 <<< 1
    let current_pc := s.get_pc
    (liftE (s.set_r rd (current_pc + 4))).bind fun s1 =>
    .ok (some addr, s1)
  | .BEQ rs1 rs2 imm =>
    (branch s rs1 rs2 imm (fun a b => a == b)).bind fun o => .ok (o, s)
  | .BNE rs1 rs2 imm =>
    (branch s rs1 rs2 imm (fun a b => a != b)).bind fun o => .ok (o, s)
  | .BLT rs1 rs2 imm =>
    (branch s rs1 rs2 imm (fun a b => signed_cmp_lt a b)).bind fun o => .ok (o, s)
  | .BLTU rs1 rs2 imm =>
    (branch s rs1 rs2 imm (fun a b => decide (a < b))).bind fun o => .ok (o, s)
  | .BGE rs1 rs2 imm =>
    (branch s rs1 rs2 imm (fun a b => signed_cmp_gt a b)).bind fun o => .ok (o, s)
  | .BGEU rs1 rs2 imm =>
    (branch s rs1 rs2 imm (fun a b => ! decide (a < b))).bind fun o => .ok (o, s)
  | .LB rs1 rd imm =>
    (liftE (s.get_r rs1)).bind fun r1 =>
    let addr := wadd r1 (sign_extend 12 imm)
    (liftE (s.get_mem_u8 addr)).bind fun val =>
    (liftE (s.set_r rd (sign_extend 8 val))).bind fun s1 =>
    .ok (none, s1)
  | .LH rs1 rd imm =>
    (liftE (s.get_r rs1)).bind fun r1 =>
    let base_addr := wadd r1 (sign_extend 12 imm)
    (liftE (s.get_mem_u16 base_addr)).bind fun val =>
    (liftE (s.set_r rd (sign_extend 16 val))).bind fun s1 =>
    .ok (none, s1)
  | .LW rd rs1 imm =>
    (liftE (s.get_r rs1)).bind fun r1 =>
    let base_addr := wadd r1 (sign_extend 12 imm)
    (liftE (s.get_mem_u32 base_addr)).bind fun val =>
    (liftE (s.set_r rd val)).bind fun s1 =>
    .ok (none, s1)
  | .LBU rd rs1 imm =>
    (liftE (s.get_r rs1)).bind fun r1 =>
    let addr := wadd r1 (sign_extend 12 imm)
    (liftE (s.get_mem_u8 addr)).bind fun val =>
    (liftE (s.set_r rd val)).bind fun s1 =>
    .ok (none, s1)
  | .LHU rd rs1 imm =>
    (liftE (s.get_r rs1)).bind fun r1 =>
    let base_addr := wadd r1 (sign_extend 12 imm)
    (liftE (s.get_mem_u16 base_addr)).bind fun val =>
    (liftE (s.set_r rd val)).bind fun s1 =>
    .ok (none, s1)
  | .SB rs1 rs2 imm =>
    (liftE (s.get_r rs1)).bind fun r1 =>
    let addr := wadd r1 (sign_extend 12 imm)
    (liftE (s.get_r rs2)).bind fun r2 =>
    (liftE (s.set_mem_u8 addr (r2 % 256))).bind fun s1 =>
    .ok (none, s1)
  | .SH rs1 rs2 imm =>
    (liftE (s.get_r rs1)).bind fun r1 =>
    let base_addr := wadd r1 (sign_extend 12 imm)
    (liftE (s.get_r rs2)).bind fun r2 =>
    (liftE (s.set_mem_u16 base_addr (r2 % 65536))).bind fun s1 =>
    .ok (none, s1)
  | .SW rs1 rs2 imm =>
    (liftE (s.get_r rs1)).bind fun r1 =>
    let base_addr := wadd r1 (sign_extend 12 imm)
    (liftE (s.get_r rs2)).bind fun r2 =>
    (liftE (s.set_mem_u32 base_addr r2)).bind fun s1 =>
    .ok (none, s1)
  | .ADDI rd rs1 imm =>
    (liftE (s.get_r rs1)).bind fun r1 =>
    (liftE (s.set_r rd (wadd r1 (sign_extend 12 imm)))).bind fun s1 =>
    .ok (none, s1)
  | .SLTI rd rs1 imm =>
    (liftE (s.get_r rs1)).bind fun r1 =>
    let lt := signed_cmp_lt r1 (sign_extend 12 imm)
    (liftE (s.set_r rd (if lt then 1 else 0))).bind fun s1 =>
    .ok (none, s1)
  | .SLTIU rd rs1 imm =>
    (liftE (s.get_r rs1)).bind fun r1 =>
    let lt := r1 < sign_extend 12 imm
    (liftE (s.set_r rd (if lt then 1 else 0))).bind fun s1 =>
    .ok (none, s1)
  | .XORI rd rs1 imm =>
    (liftE (s.get_r rs1)).bind fun r1 =>
    (liftE (s.set_r rd (r1 ^^^ sign_extend 12 imm))).bind fun s1 =>
    .ok (none, s1)
  | .ORI rd rs1 imm =>
    (liftE (s.get_r rs1)).bind fun r1 =>
    (liftE (s.set_r rd (r1 ||| sign_extend 12 imm))).bind fun s1 =>
    .ok (none, s1)
  | .ANDI rd rs1 imm =>
    (liftE (s.get_r rs1)).bind fun r1 =>
    (liftE (s.set_r rd (r1 &&& sign_extend 12 imm))).bind fun s1 =>
    .ok (none, s1)
  | .SLLI rd rs1 shamt =>
    (liftE (s.get_r rs1)).bind fun r1 =>
    (liftE (s.set_r rd (wshl r1 shamt))).bind fun s1 =>
    .ok (none, s1)
  | .SRLI rd rs1 shamt =>
    (liftE (s.get_r rs1)).bind fun r1 =>
    (liftE (s.set_r rd (wshr r1 shamt))).bind fun s1 =>
    .ok (none, s1)
  | .SRAI rd rs1 shamt =>
    (liftE (s.get_r rs1)).bind fun r1 =>
    (liftE (s.set_r rd (right_shift_arithmetic r1 shamt))).bind fun s1 =>
    .ok (none, s1)
  | .ADD rd rs1 rs2 =>
    (liftE (s.get_r rs1)).bind fun r1 =>
    (liftE (s.get_r rs2)).bind fun r2 =>
    (liftE (s.set_r rd (wadd r1 r2))).bind fun s1 =>
    .ok (none, s1)
  | .SUB rd rs1 rs2 =>
    (liftE (s.get_r rs2)).bind fun r2 =>
    let b := wadd (u32_not r2) 1
    (liftE (s.get_r rs1)).bind fun r1 =>
    (liftE (s.set_r rd (wadd r1 b))).bind fun s1 =>
    .ok (none, s1)
  | .SLT rd rs1 rs2 =>
    (liftE (s.get_r rs1)).bind fun r1 =>
    (liftE (s.get_r rs2)).bind fun r2 =>
    let lt := signed_cmp_lt r1 r2
    (liftE (s.set_r rd (if lt then 1 else 0))).bind fun s1 =>
    .ok (none, s1)
  | .SLTU rd rs1 rs2 =>
    (liftE (s.get_r rs1)).bind fun r1 =>
    (liftE (s.get_r rs2)).bind fun r2 =>
    let lt := r1 < r2
    (liftE (s.set_r rd (if lt then 1 else 0))).bind fun s1 =>
    .ok (none, s1)
  | .SLL rd rs1 rs2 =>
    (liftE (s.get_r rs1)).bind fun r1 =>
    (liftE (s.get_r rs2)).bind fun r2 =>
    (liftE (s.set_r rd (wshl r1 r2))).bind fun s1 =>
    .ok (none, s1)
  | .SRL rd rs1 rs2 =>
    (liftE (s.get_r rs1)).bind fun r1 =>
    (liftE (s.get_r rs2)).bind fun r2 =>
    (liftE (s.set_r rd (wshr r1 r2))).bind fun s1 =>
    .ok (none, s1)
  | .SRA rd rs1 rs2 =>
    (liftE (s.get_r rs1)).bind fun r1 =>
    (liftE (s.get_r rs2)).bind fun r2 =>
    (liftE (s.set_r rd (right_shift_arithmetic r1 r2))).bind fun s1 =>
    .ok (none, s1)
  | .XOR rd rs1 rs2 =>
    (liftE (s.get_r rs1)).bind fun r1 =>
    (liftE (s.get_r rs2)).bind fun r2 =>
    (liftE (s.set_r rd (r1 ^^^ r2))).bind fun s1 =>
    .ok (none, s1)
  | .OR rd rs1 rs2 =>
    (liftE (s.get_r rs1)).bind fun r1 =>
    (liftE (s.get_r rs2)).bind fun r2 =>
    (liftE (s.set_r rd (r1 ||| r2))).bind fun s1 =>
    .ok (none, s1)
  | .AND rd rs1 rs2 =>
    (liftE (s.get_r rs1)).bind fun r1 =>
    (liftE (s.get_r rs2)).bind fun r2 =>
    (liftE (s.set_r rd (r1 &&& r2))).bind fun s1 =>
    .ok (none, s1)
  | .ECALL => .err .suspend
  | .IGNORE => .ok (none, s)

/-! ### Helper lemmas -/

/-- Successful set_r implies the index was a writable one inside the
register array, and describes the updated state. -/
theorem set_r_ok_elim {s : State} {n v : Nat} {t : State}
    (h : s.set_r n v = .ok t) :
    n ≠ 0 ∧ n ≤ 31 ∧ n < s.registers.length ∧
      t = { s with registers := s.registers.set n v } := by
  unfold State.set_r at h
  split_ifs at h with h0 h1 h2
  cases h
  exact ⟨h0, by omega, h2, rfl⟩

/-- Reading back the register just written by a successful set_r. -/
theorem get_r_after_set {s : State} {n v : Nat} {t : State}
    (h : s.set_r n v = .ok t) : t.get_r n = .ok v := by
  obtain ⟨h0, h31, hlen, rfl⟩ := set_r_ok_elim h
  unfold State.get_r
  rw [if_neg h0, if_neg (by omega)]
  rw [List.getElem?_set_self hlen]

/-- Disjoint OR with a left-shifted value is addition. -/
theorem lor_shiftLeft_eq_add {a b k : Nat} (h : a < 2 ^ k) :
    a ||| (b <<< k) = a + b * 2 ^ k := by
  calc a ||| (b <<< k) = (2 ^ k * b) ||| a := by
        rw [Nat.lor_comm, Nat.shiftLeft_eq, Nat.mul_comm]
    _ = 2 ^ k * b + a := (Nat.mul_add_lt_is_or h b).symm
    _ = a + b * 2 ^ k := by ring

/-- Recombining the little-endian bytes of a 32-bit value gives it back. -/
theorem le_bytes_combine {v : Nat} (hv : v < 4294967296) :
    (v &&& 255) ||| (((v >>> 8) &&& 255) <<< 8) ||| (((v >>> 16) &&& 255) <<< 16) |||
      (((v >>> 24) &&& 255) <<< 24) = v := by
  have e255 : (255 : Nat) = 2 ^ 8 - 1 := by norm_num
  have em : ∀ x : Nat, x &&& 255 = x % 256 := fun x => by
    rw [e255, Nat.and_pow_two_sub_one_eq_mod]
  have es : ∀ x k : Nat, x >>> k = x / 2 ^ k := fun x k => Nat.shiftRight_eq_div_pow x k
  have h0 : v &&& 255 < 2 ^ 8 := by rw [em]; omega
  rw [lor_shiftLeft_eq_add h0]
  have h1 : (v &&& 255) + ((v >>> 8) &&& 255) * 2 ^ 8 < 2 ^ 16 := by
    rw [em, em]; omega
  rw [lor_shiftLeft_eq_add h1]
  have h2 : (v &&& 255) + ((v >>> 8) &&& 255) * 2 ^ 8 +
      ((v >>> 16) &&& 255) * 2 ^ 16 < 2 ^ 24 := by
    rw [em, em, em]; omega
  rw [lor_shiftLeft_eq_add h2]
  rw [em, em, em, em, es, es, es]
  norm_num
  omega

/-! ### Claims -/

/-- C1: the spec's opcode table promises that decode maps 0x00000073 to the
ECALL record and every opcode-0001111 word to IGNORE; the source decoder
has no arm for either opcode, so both fall through to UnknownInst. -/
theorem decode_system_and_misc_mem_unknown :
    decode 115 = none ∧ ∀ w : Nat, w &&& 127 = 15 → decode w = none := by
  constructor
  · rfl
  · intro w h
    simp only [decode, h]
    norm_num

/-- Witness for C1: the FENCE base word 0x0000000F decodes to UnknownInst. -/
theorem decode_system_and_misc_mem_unknown_w : decode 15 = none :=
  decode_system_and_misc_mem_unknown.2 15 (by decide)

/-- C2: the claim says set_r(0, v) succeeds and silently discards the
write; the source instead returns the IllegalOperation error (get_r(0)
does always yield 0). -/
theorem set_r_zero_rejected (s : State) (v : Nat) :
    s.set_r 0 v = .err .IllegalOperation ∧ s.get_r 0 = .ok 0 := by
  constructor <;> simp [State.set_r, State.get_r]

/-- C3: the claim says indices 1..31 are readable and writable and nothing
panics; the register array has only 31 slots and the source indexes it
directly with the register name, so index 31 is out of bounds and panics. -/
theorem reg_index_31_panics (s : State) (v : Nat)
    (h : s.registers.length = 31) :
    s.get_r 31 = .panic ∧ s.set_r 31 v = .panic := by
  have hnone : s.registers[31]? = none := by
    rw [List.getElem?_eq_none]; omega
  constructor
  · simp [State.get_r, hnone]
  · simp [State.set_r, h]

/-- Witness for C3: both register accessors panic at index 31 on the
default state. -/
theorem reg_index_31_panics_w :
    (State.default 4).get_r 31 = .panic ∧ (State.default 4).set_r 31 7 = .panic :=
  reg_index_31_panics (State.default 4) 7 (by decide)

/-- C4: the claim says out-of-range memory accesses return the
InvalidMemoryAccess error; the source has no bounds check (only TODO
comments) and an out-of-range index panics. -/
theorem mem_out_of_bounds_panics (s : State) (addr v : Nat)
    (h : s.memory.length ≤ addr) :
    s.get_mem_u8 addr = .panic ∧ s.set_mem_u8 addr v = .panic := by
  have hnone : s.memory[addr]? = none := by
    rw [List.getElem?_eq_none]; omega
  constructor
  · simp [State.get_mem_u8, hnone]
  · simp [State.set_mem_u8]; omega

/-- Witness for C4: the byte accessors panic at address M on the default
state of memory size M = 4. -/
theorem mem_out_of_bounds_panics_w :
    (State.default 4).get_mem_u8 4 = .panic ∧ (State.default 4).set_mem_u8 4 9 = .panic :=
  mem_out_of_bounds_panics (State.default 4) 4 9 (by decide)

/-- C5: a successful 32-bit store followed by a load at the same address
returns the stored value, and every successful 32-bit load is the
little-endian OR-combination of the four byte loads at a .. a+3. -/
theorem mem_u32_roundtrip_le :
    (∀ (s : State) (a v : Nat) (s2 : State), v < 4294967296 →
        s.set_mem_u32 a v = .ok s2 → s2.get_mem_u32 a = .ok v) ∧
    (∀ (s : State) (a w : Nat), s.get_mem_u32 a = .ok w →
        ∃ b0 b1 b2 b3 : Nat,
          s.get_mem_u8 a = .ok b0 ∧ s.get_mem_u8 (a + 1) = .ok b1 ∧
          s.get_mem_u8 (a + 2) = .ok b2 ∧ s.get_mem_u8 (a + 3) = .ok b3 ∧
          w = b0 ||| (b1 <<< 8) ||| (b2 <<< 16) ||| (b3 <<< 24)) := by
  constructor
  · intro s a v s2 hv h
    by_cases c0 : a < s.memory.length
    · by_cases c1 : a + 1 < s.memory.length
      · by_cases c2 : a + 2 < s.memory.length
        · by_cases c3 : a + 3 < s.memory.length
          · simp only [State.set_mem_u32, State.set_mem_u8, Res.bind,
              List.length_set, if_pos c0, if_pos c1, if_pos c2, if_pos c3] at h
            injection h with h4
            subst h4
            have g0 : (((((s.memory.set a (v &&& 255)).set (a + 1) ((v >>> 8) &&& 255)).set
                (a + 2) ((v >>> 16) &&& 255)).set (a + 3) ((v >>> 24) &&& 255)))[a]? =
                some (v &&& 255) := by
              rw [List.getElem?_set_ne (by omega), List.getElem?_set_ne (by omega),
                List.getElem?_set_ne (by omega), List.getElem?_set_self c0]
            have g1 : (((((s.memory.set a (v &&& 255)).set (a + 1) ((v >>> 8) &&& 255)).set
                (a + 2) ((v >>> 16) &&& 255)).set (a + 3) ((v >>> 24) &&& 255)))[a + 1]? =
                some ((v >>> 8) &&& 255) := by
              rw [List.getElem?_set_ne (by omega), List.getElem?_set_ne (by omega),
                List.getElem?_set_self (by simpa using c1)]
            have g2 : (((((s.memory.set a (v &&& 255)).set (a + 1) ((v >>> 8) &&& 255)).set
                (a + 2) ((v >>> 16) &&& 255)).set (a + 3) ((v >>> 24) &&& 255)))[a + 2]? =
                some ((v >>> 16) &&& 255) := by
              rw [List.getElem?_set_ne (by omega),
                List.getElem?_set_self (by simpa using c2)]
            have g3 : (((((s.memory.set a (v &&& 255)).set (a + 1) ((v >>> 8) &&& 255)).set
                (a + 2) ((v >>> 16) &&& 255)).set (a + 3) ((v >>> 24) &&& 255)))[a + 3]? =
                some ((v >>> 24) &&& 255) := by
              rw [List.getElem?_set_self (by simpa using c3)]
            simp only [State.get_mem_u32, State.get_mem_u8, g0, g1, g2, g3, Res.bind]
            rw [le_bytes_combine hv]
          · simp [State.set_mem_u32, State.set_mem_u8, Res.bind, List.length_set,
              c0, c1, c2, c3] at h
        · simp [State.set_mem_u32, State.set_mem_u8, Res.bind, List.length_set,
            c0, c1, c2] at h
      · simp [State.set_mem_u32, State.set_mem_u8, Res.bind, List.length_set,
          c0, c1] at h
    · simp [State.set_mem_u32, State.set_mem_u8, Res.bind, c0] at h
  · intro s a w h
    unfold State.get_mem_u32 at h
    cases h0 : s.get_mem_u8 a with
    | ok b0 =>
      rw [h0] at h
      cases h1 : s.get_mem_u8 (a + 1) with
      | ok b1 =>
        rw [h1] at h
        cases h2 : s.get_mem_u8 (a + 2) with
        | ok b2 =>
          rw [h2] at h
          cases h3 : s.get_mem_u8 (a + 3) with
          | ok b3 =>
            rw [h3] at h
            simp only [Res.bind] at h
            injection h with h4
            exact ⟨b0, b1, b2, b3, rfl, rfl, rfl, rfl, h4.symm⟩
          | err e => rw [h3] at h; cases h
          | panic => rw [h3] at h; cases h
        | err e => rw [h2] at h; cases h
        | panic => rw [h2] at h; cases h
      | err e => rw [h1] at h; cases h
      | panic => rw [h1] at h; cases h
    | err e => rw [h0] at h; cases h
    | panic => rw [h0] at h; cases h

/-- Witness for C5: storing 0xDEADBEEF at address 2 of an 8-byte memory
and loading it back. -/
theorem mem_u32_roundtrip_le_w :
    (State.mk 0 [] (((((List.replicate 8 0).set 2 239).set 3 190).set 4 173).set 5 222)).get_mem_u32 2 =
      .ok 3735928559 :=
  mem_u32_roundtrip_le.1 (State.mk 0 [] (List.replicate 8 0)) 2 3735928559 _
    (by decide) (by decide)

/-- Interpretation of a 32-bit pattern as a two's-complement i32, modelled
from the spec's words for the refinement check of signed_cmp_lt. -/
def i32_of_word (v : Nat) : Int :=
  if v < 2147483648 then (v : Int) else (v : Int) - 4294967296

/-- C6: the bit-pattern signed comparison agrees with the two's-complement
interpretation on all 32-bit words. -/
theorem signed_cmp_lt_agrees (a b : Nat)
    (ha : a < 4294967296) (hb : b < 4294967296) :
    signed_cmp_lt a b = true ↔ i32_of_word a < i32_of_word b := by
  have hsa : a >>> 31 = a / 2147483648 := Nat.shiftRight_eq_div_pow a 31
  have hsb : b >>> 31 = b / 2147483648 := Nat.shiftRight_eq_div_pow b 31
  unfold signed_cmp_lt i32_of_word
  rw [hsa, hsb]
  split_ifs <;> simp <;> omega

/-- Witness for C6: 0xFFFFFFFF (minus one) compares below zero. -/
theorem signed_cmp_lt_agrees_w :
    signed_cmp_lt 4294967295 0 = true ↔ i32_of_word 4294967295 < i32_of_word 0 :=
  signed_cmp_lt_agrees 4294967295 0 (by decide) (by decide)

/-- C7: a successful JAL or JALR with rd not x0 leaves pc + 4 in rd, and
JALR redirects to the old rs1 value plus the 12-bit sign-extended
immediate, with the least-significant bit cleared (rs1 is read before rd
is written, so rd may equal rs1). -/
theorem jal_jalr_write_link :
    (∀ (s : State) (rd imm : Nat) (o : Option Nat) (s2 : State), rd ≠ 0 →
        (Inst.JAL rd imm).execute s = .ok (o, s2) →
        s2.get_r rd = .ok (s.get_pc + 4)) ∧
    (∀ (s : State) (rd rs1 imm a : Nat) (o : Option Nat) (s2 : State), rd ≠ 0 →
        s.get_r rs1 = .ok a →
        (Inst.JALR rd rs1 imm).execute s = .ok (o, s2) →
        s2.get_r rd = .ok (s.get_pc + 4) ∧
          o = some (wadd a (sign_extend 12 imm) >>> 1 <<< 1)) := by
  constructor
  · intro s rd imm o s2 hrd h
    simp only [Inst.execute] at h
    cases hset : s.set_r rd (s.get_pc + 4) with
    | ok s1 =>
      rw [hset] at h
      simp only [liftE, Res.bind] at h
      injection h with hp
      injection hp with hpo hps
      subst hps
      exact get_r_after_set hset
    | err e => rw [hset] at h; simp [liftE, Res.bind] at h
    | panic => rw [hset] at h; simp [liftE, Res.bind] at h
  · intro s rd rs1 imm a o s2 hrd ha h
    simp only [Inst.execute] at h
    rw [ha] at h
    simp only [liftE, Res.bind] at h
    cases hset : s.set_r rd (s.get_pc + 4) with
    | ok s1 =>
      rw [hset] at h
      simp only [liftE, Res.bind] at h
      injection h with hp
      injection hp with hpo hps
      subst hps
      exact ⟨get_r_after_set hset, hpo.symm⟩
    | err e => rw [hset] at h; simp [liftE, Res.bind] at h
    | panic => rw [hset] at h; simp [liftE, Res.bind] at h

/-- Witness for C7: JAL and JALR with rd = x1 from the zero state. -/
theorem jal_jalr_write_link_w :
    (State.mk 0 ((List.replicate 31 0).set 1 4) []).get_r 1 =
        .ok ((State.mk 0 (List.replicate 31 0) []).get_pc + 4) ∧
      ((State.mk 0 ((List.replicate 31 0).set 1 4) []).get_r 1 =
          .ok ((State.mk 0 (List.replicate 31 0) []).get_pc + 4) ∧
        (some 0 : Option Nat) = some (wadd 0 (sign_extend 12 0) >>> 1 <<< 1)) :=
  ⟨jal_jalr_write_link.1 (State.mk 0 (List.replicate 31 0) []) 1 8 (some 8)
      (State.mk 0 ((List.replicate 31 0).set 1 4) []) (by decide) (by decide),
    jal_jalr_write_link.2 (State.mk 0 (List.replicate 31 0) []) 1 5 0 0 (some 0)
      (State.mk 0 ((List.replicate 31 0).set 1 4) []) (by decide) (by decide) (by decide)⟩

/-- C8: for a value with bit 31 set and a shift amount of at most 31, the
arithmetic right shift keeps bit 31 set; for a positive amount it equals
the logical shift ORed with the wrapped `u32::MAX << (32 - s)` mask; and
amounts are taken modulo 32. -/
theorem right_shift_arithmetic_preserves_sign (val s : Nat)
    (hval : val < 4294967296) (hsign : val >>> 31 = 1) (hs : s ≤ 31) :
    right_shift_arithmetic val s >>> 31 = 1 ∧
    (0 < s → right_shift_arithmetic val s =
      (val >>> s) ||| ((4294967295 <<< (32 - s)) % 4294967296)) ∧
    right_shift_arithmetic val (s + 32) = right_shift_arithmetic val s := by
  have hmod : s % 32 = s := Nat.mod_eq_of_lt (by omega)
  have hmod2 : (s + 32) % 32 = s := by omega
  rcases Nat.eq_zero_or_pos s with h0 | hpos
  · subst h0
    refine ⟨?_, ?_, ?_⟩
    · simpa [right_shift_arithmetic] using hsign
    · intro h; omega
    · simp [right_shift_arithmetic]
  · have hx1 : (1 : Nat) ≤ 2 ^ (32 - s) := Nat.one_le_two_pow
    have hx31 : (2 : Nat) ^ (32 - s) ≤ 2147483648 := by
      calc (2 : Nat) ^ (32 - s) ≤ 2 ^ 31 := Nat.pow_le_pow_right (by norm_num) (by omega)
        _ = 2147483648 := by norm_num
    have hmul : 2 ^ (32 - s) * 2 ^ s = 4294967296 := by
      rw [← pow_add]
      have hss : 32 - s + s = 32 := by omega
      rw [hss]
      norm_num
    have hd : val >>> s < 2 ^ (32 - s) := by
      rw [Nat.shiftRight_eq_div_pow]
      rw [Nat.div_lt_iff_lt_mul (by positivity), hmul]
      exact hval
    have hshift : (4294967295 <<< (32 - s)) % 4294967296 = 4294967296 - 2 ^ (32 - s) := by
      rw [Nat.shiftLeft_eq]
      have heq : 4294967295 * 2 ^ (32 - s) =
          4294967296 * (2 ^ (32 - s) - 1) + (4294967296 - 2 ^ (32 - s)) := by omega
      rw [heq, Nat.mul_add_mod]
      omega
    have hsub : 4294967296 - 2 ^ (32 - s) = 2 ^ (32 - s) * (2 ^ s - 1) := by
      have h1 : 2 ^ (32 - s) * (2 ^ s - 1) = 2 ^ (32 - s) * 2 ^ s - 2 ^ (32 - s) := by
        rw [Nat.mul_sub, Nat.mul_one]
      rw [h1, hmul]
    have hor : (val >>> s) ||| (4294967296 - 2 ^ (32 - s)) =
        (4294967296 - 2 ^ (32 - s)) + (val >>> s) := by
      rw [hsub, Nat.lor_comm]
      rw [← Nat.mul_add_lt_is_or hd (2 ^ s - 1)]
    refine ⟨?_, fun _ => ?_, ?_⟩
    · simp only [right_shift_arithmetic, hmod]
      rw [if_pos ⟨hsign, hpos⟩, hshift, hor]
      rw [Nat.shiftRight_eq_div_pow]
      have e31 : (2 : Nat) ^ 31 = 2147483648 := by norm_num
      rw [e31]
      generalize hP : (2 : Nat) ^ (32 - s) = P at hx1 hx31 hd ⊢
      generalize hV : val >>> s = V at hd ⊢
      omega
    · simp only [right_shift_arithmetic, hmod]
      rw [if_pos ⟨hsign, hpos⟩]
    · simp only [right_shift_arithmetic, hmod, hmod2]

/-- Witness for C8: shifting 0x80000000 right by 4. -/
theorem right_shift_arithmetic_preserves_sign_w :
    right_shift_arithmetic 2147483648 4 >>> 31 = 1 ∧
    (0 < 4 → right_shift_arithmetic 2147483648 4 =
      (2147483648 >>> 4) ||| ((4294967295 <<< (32 - 4)) % 4294967296)) ∧
    right_shift_arithmetic 2147483648 (4 + 32) = right_shift_arithmetic 2147483648 4 :=
  right_shift_arithmetic_preserves_sign 2147483648 4 (by decide) (by decide) (by decide)

/-- C9: the SUB path `rs1 + (~rs2 + 1)` is wrapping subtraction, and the
concrete SUB of x2 = 2 from x1 = 1 stores 0xFFFFFFFF in x3. -/
theorem sub_is_wrapping_sub :
    (∀ a b : Nat, a < 4294967296 → b < 4294967296 →
        wadd a (wadd (u32_not b) 1) = (a + 4294967296 - b) % 4294967296) ∧
    (Inst.SUB 3 1 2).execute
        (State.mk 0 (((List.replicate 31 0).set 1 1).set 2 2) []) =
      .ok (none,
        State.mk 0 ((((List.replicate 31 0).set 1 1).set 2 2).set 3 4294967295) []) ∧
    (State.mk 0 ((((List.replicate 31 0).set 1 1).set 2 2).set 3 4294967295) []).get_r 3 =
      .ok 4294967295 := by
  refine ⟨?_, by decide, by decide⟩
  intro a b ha hb
  unfold wadd u32_not
  omega

/-- Witness for C9: the wrapping-subtraction identity at a = 1, b = 2. -/
theorem sub_is_wrapping_sub_w :
    wadd 1 (wadd (u32_not 2) 1) = (1 + 4294967296 - 2) % 4294967296 :=
  sub_is_wrapping_sub.1 1 2 (by decide) (by decide)

/-- Characterization of the branch helper: it only reads the two registers
and the pc, never mutates anything, and redirects to the wrapping sum of
pc and the 13-bit sign-extended immediate exactly when cmp holds. -/
theorem branch_eq (s : State) (rs1 rs2 imm : Nat) (cmp : Nat → Nat → Bool) :
    branch s rs1 rs2 imm cmp =
      match s.get_r rs1, s.get_r rs2 with
      | .ok a, .ok b =>
        if cmp a b then .ok (some (wadd s.get_pc (sign_extend 13 imm))) else .ok none
      | .err e, _ => .err (.state e)
      | .panic, _ => .panic
      | .ok _, .err e => .err (.state e)
      | .ok _, .panic => .panic := by
  unfold branch
  cases s.get_r rs1 <;> cases s.get_r rs2 <;> simp [liftE, Res.bind]

/-- Pushing Res.bind through the two-way ok split of the branch helper. -/
theorem bind_if_ok {c : Prop} [Decidable c] (x y : Option Nat) (s : State) :
    Res.bind (if c then (Res.ok x : Res InstError (Option Nat)) else .ok y)
      (fun o => (Res.ok (o, s) : Res InstError (Option Nat × State))) =
    .ok ((if c then x else y), s) := by
  by_cases hc : c <;> simp [hc, Res.bind]

/-- C10: executing any of the six branch instructions returns the state
unchanged (registers, memory and pc intact): the whole effect is the
returned redirect, present exactly when the comparison holds, and a failed
register read propagates its error. -/
theorem branch_insts_pure (s : State) (rs1 rs2 imm : Nat) :
    ((Inst.BEQ rs1 rs2 imm).execute s =
      match s.get_r rs1, s.get_r rs2 with
      | .ok a, .ok b =>
        .ok (if a = b then some (wadd s.get_pc (sign_extend 13 imm)) else none, s)
      | .err e, _ => .err (.state e)
      | .panic, _ => .panic
      | .ok _, .err e => .err (.state e)
      | .ok _, .panic => .panic) ∧
    ((Inst.BNE rs1 rs2 imm).execute s =
      match s.get_r rs1, s.get_r rs2 with
      | .ok a, .ok b =>
        .ok (if a ≠ b then some (wadd s.get_pc (sign_extend 13 imm)) else none, s)
      | .err e, _ => .err (.state e)
      | .panic, _ => .panic
      | .ok _, .err e => .err (.state e)
      | .ok _, .panic => .panic) ∧
    ((Inst.BLT rs1 rs2 imm).execute s =
      match s.get_r rs1, s.get_r rs2 with
      | .ok a, .ok b =>
        .ok (if signed_cmp_lt a b then some (wadd s.get_pc (sign_extend 13 imm)) else none, s)
      | .err e, _ => .err (.state e)
      | .panic, _ => .panic
      | .ok _, .err e => .err (.state e)
      | .ok _, .panic => .panic) ∧
    ((Inst.BGE rs1 rs2 imm).execute s =
      match s.get_r rs1, s.get_r rs2 with
      | .ok a, .ok b =>
        .ok (if signed_cmp_gt a b then some (wadd s.get_pc (sign_extend 13 imm)) else none, s)
      | .err e, _ => .err (.state e)
      | .panic, _ => .panic
      | .ok _, .err e => .err (.state e)
      | .ok _, .panic => .panic) ∧
    ((Inst.BLTU rs1 rs2 imm).execute s =
      match s.get_r rs1, s.get_r rs2 with
      | .ok a, .ok b =>
        .ok (if a < b then some (wadd s.get_pc (sign_extend 13 imm)) else none, s)
      | .err e, _ => .err (.state e)
      | .panic, _ => .panic
      | .ok _, .err e => .err (.state e)
      | .ok _, .panic => .panic) ∧
    ((Inst.BGEU rs1 rs2 imm).execute s =
      match s.get_r rs1, s.get_r rs2 with
      | .ok a, .ok b =>
        .ok (if ¬ a < b then some (wadd s.get_pc (sign_extend 13 imm)) else none, s)
      | .err e, _ => .err (.state e)
      | .panic, _ => .panic
      | .ok _, .err e => .err (.state e)
      | .ok _, .panic => .panic) := by
  refine ⟨?_, ?_, ?_, ?_, ?_, ?_⟩ <;>
    (simp only [Inst.execute, branch_eq]
     cases s.get_r rs1 <;> cases s.get_r rs2 <;>
       first
         | rfl
         | (simp only [bind_if_ok, beq_iff_eq, bne_iff_ne, decide_eq_true_eq,
              Bool.not_eq_true, decide_eq_false_iff_not]
            try simp))

end Crisp
